import Mathlib

/-!
Shallow embedding of `micropython-frostapi`, a thin wrapper around the
platform-provided `pyb.I2C` peripheral driver.  Two revisions are embedded:
`frostapi.py` (class `FrostAPI`) and the earlier `i2c_api.py`
(class `I2C_API`).

The external `pyb.I2C` handle is modelled by the structure `I2C`: its
fields capture the observable behaviour of the hardware driver (which
addresses answer a readiness probe, what bytes a receive or memory read
would return, what a scan would report) together with the two facts the
wrapper extracts from `str(self.i2c)`:

* `inited` models `len(str(self.i2c).split(',')) > 1` — the printed form
  of an initialised `pyb.I2C` object lists its parameters separated by
  commas, so the wrapper's `is_init` is exactly this flag;
* `master` models `'MASTER' in str(self.i2c)` — the printed form names
  the configured mode, so the wrapper's mode test is this flag.

Every wrapper operation is embedded as a pure function from the session
state returning `(Except FrostErr α) × state × List BusCall`: the Python
result or raised exception, the session state afterwards, and the list of
bus transfers performed (`send`, `recv`, `mem_write`, `mem_read`, `scan`,
`deinit`).  A raised exception in the Python code always happens before
any mutation or transfer, which the embedding makes explicit.
-/

/-- Model of the external `pyb.I2C` bus handle.  The response fields
(`ready`, `recvData`, `scanData`, `memReadData`) are an arbitrary
environment describing how the hardware would answer each call. -/
structure I2C where
  /-- Models `len(str(i2c).split(',')) > 1`: the handle has been
  initialised via `init` and not deinitialised. -/
  inited : Bool
  /-- Models `'MASTER' in str(i2c)`: the handle was initialised in
  master mode. -/
  master : Bool
  /-- `i2c.is_ready(addr)`: does the slave at `addr` answer a probe. -/
  ready : Nat → Bool
  /-- Bytes `i2c.recv(size, addr, timeout)` would return. -/
  recvData : Nat → Nat → Nat → List Nat
  /-- Addresses `i2c.scan()` would report. -/
  scanData : List Nat
  /-- Bytes `i2c.mem_read(size, addr, memaddr, timeout, addr_size)` would
  return.  The device address slot is `Option Nat` because `FrostAPI`
  forwards its stored address, which may be unset (`None`). -/
  memReadData : Nat → Option Nat → Nat → Nat → Nat → List Nat

/-- `i2c.deinit()`: after deinitialisation the printed form of the handle
lists no parameters and names no mode. -/
def deinitBus (b : I2C) : I2C :=
  { b with inited := false, master := false }

/-- The exceptions raised by the wrapper.  `notFoundAddress` is
`"Couldn't find the device address!"` (raised by `FrostAPI.not_found_address`
and by `Raises.device_address` in `i2c_api.py`, with the identical
message).  `notInitDevice` is the device-not-initialised condition:
`"Didn't init your device yet!"` in `frostapi.py` and
`"The device didn't init yet!"` in `i2c_api.py`.  `notInitByMasterMode`
is `"Didn't init your device by Master mode."`. -/
inductive FrostErr where
  | notFoundAddress
  | notInitDevice
  | notInitByMasterMode
  deriving DecidableEq

/-- One call to the bus handle that touches the bus (a transfer, a scan,
or a deinitialisation).  Readiness probes (`is_ready`) and inspections of
`str(i2c)` are not transfers and are not recorded. -/
inductive BusCall where
  | send (buf : List Nat) (addr timeout : Nat)
  | recv (size addr timeout : Nat)
  | memWrite (data : List Nat) (addr : Option Nat) (memaddr timeout addrSize : Nat)
  | memRead (size : Nat) (addr : Option Nat) (memaddr timeout addrSize : Nat)
  | scan
  | deinit
  deriving DecidableEq

/-- The session state of a `FrostAPI` object: the owned bus handle and
the three scalar settings.  `_addr` is `Option Nat` because `__init__`
sets it to `None`. -/
structure FrostState where
  i2c : I2C
  _addr : Option Nat
  _timeout : Nat
  _addr_size : Nat

namespace FrostAPI

/-- `FrostAPI.__init__(bus)`: stores the handle, sets `self._addr = None`,
then calls `set_timeout()` (default `5000`) and `set_addr_size()`
(default `8`). -/
def construct (bus : I2C) : FrostState :=
  { i2c := bus, _addr := none, _timeout := 5000, _addr_size := 8 }

/-- `begin(mode, addr, baudrate, gencall)`: forwards to `i2c.init`.  Only
the mode is observable through the wrapper (`mode` is `True` for
`I2C.MASTER`); the slave address, baudrate and gencall flag configure the
hardware and are dropped by the model. -/
def begin (s : FrostState) (mode : Bool) : FrostState :=
  { s with i2c := { s.i2c with inited := true, master := mode } }

/-- `is_ready(addr)`: forwards to `i2c.is_ready(addr)`. -/
def is_ready (s : FrostState) (addr : Nat) : Bool :=
  s.i2c.ready addr

/-- `is_init()`: `len(str(self.i2c).split(',')) > 1`. -/
def is_init (s : FrostState) : Bool :=
  s.i2c.inited

/-- `is_master_mode()`: raises `not_init_device` when not initialised,
otherwise returns `'MASTER' in str(self.i2c)`. -/
def is_master_mode (s : FrostState) : Except FrostErr Bool :=
  if !is_init s then .error .notInitDevice
  else .ok s.i2c.master

/-- `close()`: raises `not_init_device` when not initialised, otherwise
`i2c.deinit()`. -/
def close (s : FrostState) : Except FrostErr Unit × FrostState × List BusCall :=
  if !is_init s then (.error .notInitDevice, s, [])
  else (.ok (), { s with i2c := deinitBus s.i2c }, [.deinit])

/-- `scan_addr()`: `return self.i2c.scan()`, with no guard. -/
def scan_addr (s : FrostState) : Except FrostErr (List Nat) × FrostState × List BusCall :=
  (.ok s.i2c.scanData, s, [.scan])

/-- `set_addr(addr)`: `self._addr = addr`. -/
def set_addr (s : FrostState) (addr : Nat) : FrostState :=
  { s with _addr := some addr }

/-- `get_addr()`: `return self._addr` (possibly `None`). -/
def get_addr (s : FrostState) : Option Nat :=
  s._addr

/-- `set_timeout(timeout=5000)`: `self._timeout = timeout`. -/
def set_timeout (s : FrostState) (timeout : Nat) : FrostState :=
  { s with _timeout := timeout }

/-- `get_timeout()`: `return self._timeout`. -/
def get_timeout (s : FrostState) : Nat :=
  s._timeout

/-- `set_addr_size(addr_size=8)`: `self._addr_size = addr_size`. -/
def set_addr_size (s : FrostState) (addr_size : Nat) : FrostState :=
  { s with _addr_size := addr_size }

/-- `get_addr_size()`: `return self._addr_size`. -/
def get_addr_size (s : FrostState) : Nat :=
  s._addr_size

/-- `_send(buf, addr=0x00, timeout=5000)`: forwards to `i2c.send`
unconditionally — in this revision `_send` has no guard at all. -/
def _send (s : FrostState) (buf : List Nat) (addr timeout : Nat) :
    Except FrostErr Unit × FrostState × List BusCall :=
  (.ok (), s, [.send buf addr timeout])

/-- `send_to(buf, addr)`: raises `not_found_address` when
`is_ready(addr)` fails, otherwise `_send(buf, addr, get_timeout())`. -/
def send_to (s : FrostState) (buf : List Nat) (addr : Nat) :
    Except FrostErr Unit × FrostState × List BusCall :=
  if !is_ready s addr then (.error .notFoundAddress, s, [])
  else _send s buf addr (get_timeout s)

/-- `_recv(size, addr=0x00, timeout=5000)`: raises `not_found_address`
when `is_ready(addr)` fails, otherwise `i2c.recv`. -/
def _recv (s : FrostState) (size addr timeout : Nat) :
    Except FrostErr (List Nat) × FrostState × List BusCall :=
  if !is_ready s addr then (.error .notFoundAddress, s, [])
  else (.ok (s.i2c.recvData size addr timeout), s, [.recv size addr timeout])

/-- `recv_from(size, addr)`: raises `not_found_address` when
`is_ready(addr)` fails, otherwise `_recv(size, addr, get_timeout())`
(which re-checks the same probe). -/
def recv_from (s : FrostState) (size addr : Nat) :
    Except FrostErr (List Nat) × FrostState × List BusCall :=
  if !is_ready s addr then (.error .notFoundAddress, s, [])
  else _recv s size addr (get_timeout s)

/-- `_write(buf, addr, memaddr)`: forwards to `i2c.mem_write` with the
stored timeout and address width, unconditionally. -/
def _write (s : FrostState) (buf : List Nat) (addr : Option Nat) (memaddr : Nat) :
    Except FrostErr Unit × FrostState × List BusCall :=
  (.ok (), s, [.memWrite buf addr memaddr (get_timeout s) (get_addr_size s)])

/-- `write_mem(buf, memaddr)`: propagates `is_master_mode`'s exception,
raises `not_init_by_master_mode` when the mode is not master, otherwise
`_write(buf, get_addr(), memaddr)`. -/
def write_mem (s : FrostState) (buf : List Nat) (memaddr : Nat) :
    Except FrostErr Unit × FrostState × List BusCall :=
  match is_master_mode s with
  | .error e => (.error e, s, [])
  | .ok m =>
    if !m then (.error .notInitByMasterMode, s, [])
    else _write s buf (get_addr s) memaddr

/-- `_read(size, addr, memaddr)`: forwards to `i2c.mem_read` with the
stored timeout and address width, unconditionally. -/
def _read (s : FrostState) (size : Nat) (addr : Option Nat) (memaddr : Nat) :
    Except FrostErr (List Nat) × FrostState × List BusCall :=
  (.ok (s.i2c.memReadData size addr memaddr (get_timeout s) (get_addr_size s)), s,
    [.memRead size addr memaddr (get_timeout s) (get_addr_size s)])

/-- `read_mem(size, memaddr)`: propagates `is_master_mode`'s exception,
raises `not_init_by_master_mode` when the mode is not master, otherwise
`_read(size, get_addr(), memaddr)`. -/
def read_mem (s : FrostState) (size memaddr : Nat) :
    Except FrostErr (List Nat) × FrostState × List BusCall :=
  match is_master_mode s with
  | .error e => (.error e, s, [])
  | .ok m =>
    if !m then (.error .notInitByMasterMode, s, [])
    else _read s size (get_addr s) memaddr

end FrostAPI

/-- The session state of an `I2C_API` object (`i2c_api.py`): the bus
handle and the stored address `_ADDR`, whose class-level default is
`0x00`. -/
structure I2CState where
  i2c : I2C
  _ADDR : Nat

namespace I2C_API

/-- `I2C_API.__init__(bus)`: stores the handle; `_ADDR` keeps the class
default `0x00`. -/
def construct (bus : I2C) : I2CState :=
  { i2c := bus, _ADDR := 0x00 }

/-- `is_init()`: `len(str(self.i2c).split(',')) > 1` — identical to the
`FrostAPI` revision. -/
def is_init (s : I2CState) : Bool :=
  s.i2c.inited

/-- `close()`: `i2c.deinit()` when initialised, otherwise
`Raises.device_init()`. -/
def close (s : I2CState) : Except FrostErr Unit × I2CState × List BusCall :=
  if is_init s then (.ok (), { s with i2c := deinitBus s.i2c }, [.deinit])
  else (.error .notInitDevice, s, [])

/-- `get_addr()`: `return self._ADDR`. -/
def get_addr (s : I2CState) : Nat :=
  s._ADDR

/-- `set_addr(addr)`: `self._ADDR = addr`. -/
def set_addr (s : I2CState) (addr : Nat) : I2CState :=
  { s with _ADDR := addr }

/-- `is_ready()`: probes the *stored* address,
`self.i2c.is_ready(self.get_addr())`. -/
def is_ready (s : I2CState) : Bool :=
  s.i2c.ready (get_addr s)

/-- `addr_scan()`: `return self.i2c.scan()`, with no guard. -/
def addr_scan (s : I2CState) : Except FrostErr (List Nat) × I2CState × List BusCall :=
  (.ok s.i2c.scanData, s, [.scan])

/-- `_send(buf, addr=0x00, timeout=5000)`: `i2c.send(buf, addr, timeout)`
when `is_ready()` (the stored address) holds, otherwise
`Raises.device_address()`. -/
def _send (s : I2CState) (buf : List Nat) (addr timeout : Nat) :
    Except FrostErr Unit × I2CState × List BusCall :=
  if is_ready s then (.ok (), s, [.send buf addr timeout])
  else (.error .notFoundAddress, s, [])

/-- `_recv(size, addr=0x00, timeout=5000)`: `i2c.recv(size, addr, timeout)`
when `is_ready()` holds, otherwise `Raises.device_address()`. -/
def _recv (s : I2CState) (size addr timeout : Nat) :
    Except FrostErr (List Nat) × I2CState × List BusCall :=
  if is_ready s then (.ok (s.i2c.recvData size addr timeout), s, [.recv size addr timeout])
  else (.error .notFoundAddress, s, [])

/-- `_write(buf, addr, memaddr, timeout=5000, addr_size=8)`:
`i2c.mem_write(...)` when `is_ready()` holds, otherwise
`Raises.device_address()`. -/
def _write (s : I2CState) (buf : List Nat) (addr memaddr timeout addr_size : Nat) :
    Except FrostErr Unit × I2CState × List BusCall :=
  if is_ready s then (.ok (), s, [.memWrite buf (some addr) memaddr timeout addr_size])
  else (.error .notFoundAddress, s, [])

/-- `_read(size, addr, memaddr, timeout=5000, addr_size=8)`:
`i2c.mem_read(...)` when `is_ready()` holds, otherwise
`Raises.device_address()`. -/
def _read (s : I2CState) (size addr memaddr timeout addr_size : Nat) :
    Except FrostErr (List Nat) × I2CState × List BusCall :=
  if is_ready s then
    (.ok (s.i2c.memReadData size (some addr) memaddr timeout addr_size), s,
      [.memRead size (some addr) memaddr timeout addr_size])
  else (.error .notFoundAddress, s, [])

end I2C_API

/-- A bus that is initialised in master mode but on which no slave
answers the readiness probe. -/
def busMasterNoReady : I2C :=
  { inited := true, master := true, ready := fun _ => false,
    recvData := fun _ _ _ => [], scanData := [],
    memReadData := fun _ _ _ _ _ => [0xA5] }

/-- A bus that has never been initialised but on which every address
answers the readiness probe. -/
def busUninitAllReady : I2C :=
  { inited := false, master := false, ready := fun _ => true,
    recvData := fun size addr timeout => [size, addr, timeout],
    scanData := [0x12, 0x34],
    memReadData := fun _ _ _ _ _ => [0x5A] }

/-- A bus initialised in master mode on which every address answers. -/
def busMasterAllReady : I2C :=
  { inited := true, master := true, ready := fun _ => true,
    recvData := fun size addr timeout => [size + addr + timeout],
    scanData := [0x40],
    memReadData := fun size addr memaddr timeout addrSize =>
      [size, addr.getD 0, memaddr, timeout, addrSize] }

/-- C3: for every session state, `close` raises the device-not-initialised
exception if and only if `is_init` returns `False`, and otherwise
deinitialises the bus handle; on the error path the session state is
unchanged and no bus call is made.  Both the `FrostAPI` and the `I2C_API`
revision satisfy this. -/
theorem c3_close_raises_iff_not_init (s : FrostState) (t : I2CState) :
    ((FrostAPI.close s).1 = Except.error FrostErr.notInitDevice ↔ FrostAPI.is_init s = false)
    ∧ (FrostAPI.is_init s = false → FrostAPI.close s = (.error .notInitDevice, s, []))
    ∧ (FrostAPI.is_init s = true →
        FrostAPI.close s = (.ok (), { s with i2c := deinitBus s.i2c }, [.deinit]))
    ∧ ((I2C_API.close t).1 = Except.error FrostErr.notInitDevice ↔ I2C_API.is_init t = false)
    ∧ (I2C_API.is_init t = false → I2C_API.close t = (.error .notInitDevice, t, []))
    ∧ (I2C_API.is_init t = true →
        I2C_API.close t = (.ok (), { t with i2c := deinitBus t.i2c }, [.deinit])) := by
  cases hs : s.i2c.inited <;> cases ht : t.i2c.inited <;>
    simp [FrostAPI.close, FrostAPI.is_init, I2C_API.close, I2C_API.is_init, hs, ht]

/-- C3 witness: on an uninitialised bus, `close` raises the
device-not-initialised exception and leaves the state untouched. -/
theorem c3_witness :
    FrostAPI.close (FrostAPI.construct busUninitAllReady) =
      (.error .notInitDevice, FrostAPI.construct busUninitAllReady, []) :=
  (c3_close_raises_iff_not_init (FrostAPI.construct busUninitAllReady)
    (I2C_API.construct busUninitAllReady)).2.1 rfl

/-- C6: setter/getter round-trip for each of the three scalar settings:
after `set_addr a`, `get_addr` returns `a` (wrapped in `some`, since the
field starts out as `None`); after `set_timeout t`, `get_timeout`
returns `t`; after `set_addr_size w`, `get_addr_size` returns `w`. -/
theorem c6_setter_getter_roundtrip (s : FrostState) (a t w : Nat) :
    FrostAPI.get_addr (FrostAPI.set_addr s a) = some a
    ∧ FrostAPI.get_timeout (FrostAPI.set_timeout s t) = t
    ∧ FrostAPI.get_addr_size (FrostAPI.set_addr_size s w) = w :=
  ⟨rfl, rfl, rfl⟩

/-- C7: each setter modifies only its own field of the session record:
`set_addr` leaves the timeout, address width and bus handle unchanged,
`set_timeout` leaves the address, address width and bus handle unchanged,
and `set_addr_size` leaves the address, timeout and bus handle
unchanged. -/
theorem c7_setter_frame (s : FrostState) (a t w : Nat) :
    (FrostAPI.set_addr s a)._timeout = s._timeout
    ∧ (FrostAPI.set_addr s a)._addr_size = s._addr_size
    ∧ (FrostAPI.set_addr s a).i2c = s.i2c
    ∧ (FrostAPI.set_timeout s t)._addr = s._addr
    ∧ (FrostAPI.set_timeout s t)._addr_size = s._addr_size
    ∧ (FrostAPI.set_timeout s t).i2c = s.i2c
    ∧ (FrostAPI.set_addr_size s w)._addr = s._addr
    ∧ (FrostAPI.set_addr_size s w)._timeout = s._timeout
    ∧ (FrostAPI.set_addr_size s w).i2c = s.i2c :=
  ⟨rfl, rfl, rfl, rfl, rfl, rfl, rfl, rfl, rfl⟩

/-- C8: when its readiness guard passes, `recv_from size addr` returns
exactly the bytes the bus handle's `recv` call returns (with the stored
timeout), and `scan_addr` returns exactly the address list the bus
handle's `scan` call returns. -/
theorem c8_forward_results (s : FrostState) (size addr : Nat)
    (h : FrostAPI.is_ready s addr = true) :
    FrostAPI.recv_from s size addr =
      (.ok (s.i2c.recvData size addr (FrostAPI.get_timeout s)), s,
        [.recv size addr (FrostAPI.get_timeout s)])
    ∧ FrostAPI.scan_addr s = (.ok s.i2c.scanData, s, [.scan]) := by
  refine ⟨?_, rfl⟩
  simp [FrostAPI.recv_from, FrostAPI._recv, h]

/-- C8 witness: on a concrete master-mode bus where address `2` answers,
`recv_from 4 2` returns exactly the environment's receive bytes. -/
theorem c8_witness :
    FrostAPI.recv_from (FrostAPI.construct busMasterAllReady) 4 2 =
      (.ok [5006], FrostAPI.construct busMasterAllReady, [.recv 4 2 5000]) :=
  (c8_forward_results (FrostAPI.construct busMasterAllReady) 4 2 rfl).1

/-- C9: immediately after construction, the stored slave address is
`None`, `get_timeout` returns `5000` milliseconds and `get_addr_size`
returns `8` bits, before any setter is called. -/
theorem c9_construct_defaults (b : I2C) :
    (FrostAPI.construct b)._addr = none
    ∧ FrostAPI.get_timeout (FrostAPI.construct b) = 5000
    ∧ FrostAPI.get_addr_size (FrostAPI.construct b) = 8 :=
  ⟨rfl, rfl, rfl⟩

/-- A `FrostAPI` session on `busMasterNoReady` with the stored address
set to `5`. -/
def sNoReady : FrostState := FrostAPI.set_addr (FrostAPI.construct busMasterNoReady) 5

/-- A `FrostAPI` session on `busUninitAllReady`, i.e. `begin` has never
been called. -/
def sUninitReady : FrostState := FrostAPI.construct busUninitAllReady

/-- C1 counterexample: on a master-mode bus where no address (in
particular the target address `5`) answers the readiness probe,
`write_mem` and `read_mem` raise nothing and perform their memory
transfer anyway, and `scan_addr` performs its scan — contradicting the
claim that every one of the five operations raises the device-not-found
exception and performs no bus transfer. -/
theorem c1_counterexample :
    FrostAPI.is_ready sNoReady 5 = false
    ∧ FrostAPI.write_mem sNoReady [1] 7 =
        (.ok (), sNoReady, [.memWrite [1] (some 5) 7 5000 8])
    ∧ FrostAPI.read_mem sNoReady 3 7 =
        (.ok [0xA5], sNoReady, [.memRead 3 (some 5) 7 5000 8])
    ∧ FrostAPI.scan_addr sNoReady = (.ok [], sNoReady, [.scan]) :=
  ⟨rfl, rfl, rfl, rfl⟩

/-- C1 amended: only `send_to` and `recv_from` guard the transfer with a
readiness probe of the target address — when the probe fails they raise
the device-not-found exception and perform no bus transfer — while
`write_mem`, `read_mem` and `scan_addr` perform no readiness probe:
the memory operations can never raise the device-not-found exception and
`scan_addr` always performs its scan unguarded. -/
theorem c1_amended (s : FrostState) (buf : List Nat) (size addr : Nat)
    (h : FrostAPI.is_ready s addr = false) :
    FrostAPI.send_to s buf addr = (.error .notFoundAddress, s, [])
    ∧ FrostAPI.recv_from s size addr = (.error .notFoundAddress, s, [])
    ∧ (∀ (u : FrostState) (b : List Nat) (m : Nat),
        (FrostAPI.write_mem u b m).1 ≠ Except.error FrostErr.notFoundAddress)
    ∧ (∀ (u : FrostState) (z m : Nat),
        (FrostAPI.read_mem u z m).1 ≠ Except.error FrostErr.notFoundAddress)
    ∧ (∀ u : FrostState, FrostAPI.scan_addr u = (.ok u.i2c.scanData, u, [.scan])) := by
  refine ⟨?_, ?_, ?_, ?_, fun u => rfl⟩
  · simp [FrostAPI.send_to, h]
  · simp [FrostAPI.recv_from, h]
  · intro u b m
    unfold FrostAPI.write_mem FrostAPI.is_master_mode
    cases hu : FrostAPI.is_init u <;> cases hm : u.i2c.master <;>
      simp [hu, hm, FrostAPI._write]
  · intro u z m
    unfold FrostAPI.read_mem FrostAPI.is_master_mode
    cases hu : FrostAPI.is_init u <;> cases hm : u.i2c.master <;>
      simp [hu, hm, FrostAPI._read]

/-- C1 witness: at the concrete non-answering state, `send_to` raises the
device-not-found exception and performs no transfer. -/
theorem c1_witness :
    FrostAPI.send_to sNoReady [2] 9 = (.error .notFoundAddress, sNoReady, []) :=
  (c1_amended sNoReady [2] 0 9 rfl).1

/-- C2 counterexample: on a bus that has never been initialised (but
whose addresses answer the probe), `send_to`, `recv_from` and `scan_addr`
raise nothing and perform their bus transfer — contradicting the claim
that every one of the five operations raises the device-not-initialised
exception and performs no bus transfer. -/
theorem c2_counterexample :
    FrostAPI.is_init sUninitReady = false
    ∧ FrostAPI.send_to sUninitReady [1] 2 = (.ok (), sUninitReady, [.send [1] 2 5000])
    ∧ FrostAPI.recv_from sUninitReady 3 2 =
        (.ok [3, 2, 5000], sUninitReady, [.recv 3 2 5000])
    ∧ FrostAPI.scan_addr sUninitReady = (.ok [0x12, 0x34], sUninitReady, [.scan]) :=
  ⟨rfl, rfl, rfl, rfl⟩

/-- C2 amended: only `write_mem` and `read_mem` check initialisation —
on an uninitialised bus they raise the device-not-initialised exception
and perform no bus transfer — while `send_to`, `recv_from` and
`scan_addr` perform no initialisation check: on the same uninitialised
bus `scan_addr` scans, and `send_to`/`recv_from` transfer whenever their
readiness probe passes. -/
theorem c2_amended (s : FrostState) (buf : List Nat) (size addr memaddr : Nat)
    (h : FrostAPI.is_init s = false) :
    FrostAPI.write_mem s buf memaddr = (.error .notInitDevice, s, [])
    ∧ FrostAPI.read_mem s size memaddr = (.error .notInitDevice, s, [])
    ∧ FrostAPI.scan_addr s = (.ok s.i2c.scanData, s, [.scan])
    ∧ (FrostAPI.is_ready s addr = true →
        FrostAPI.send_to s buf addr = (.ok (), s, [.send buf addr s._timeout]))
    ∧ (FrostAPI.is_ready s addr = true →
        FrostAPI.recv_from s size addr =
          (.ok (s.i2c.recvData size addr s._timeout), s, [.recv size addr s._timeout])) := by
  refine ⟨?_, ?_, rfl, ?_, ?_⟩
  · simp [FrostAPI.write_mem, FrostAPI.is_master_mode, h]
  · simp [FrostAPI.read_mem, FrostAPI.is_master_mode, h]
  · intro hr
    simp [FrostAPI.send_to, hr, FrostAPI._send, FrostAPI.get_timeout]
  · intro hr
    simp [FrostAPI.recv_from, FrostAPI._recv, hr, FrostAPI.get_timeout]

/-- C2 witness: at the concrete uninitialised state, `write_mem` raises
the device-not-initialised exception and performs no transfer. -/
theorem c2_witness :
    FrostAPI.write_mem sUninitReady [9] 1 = (.error .notInitDevice, sUninitReady, []) :=
  (c2_amended sUninitReady [9] 0 0 1 rfl).1

/-- A bus initialised in master mode on which only address `2` answers
the readiness probe; in particular the `I2C_API` class-default stored
address `0x00` does not answer. -/
def busReadySel : I2C :=
  { inited := true, master := true, ready := fun a => a == 2,
    recvData := fun size addr timeout => [size, addr, timeout],
    scanData := [2],
    memReadData := fun _ _ _ _ _ => [0x77] }

/-- The `I2C_API` session on `busReadySel` (stored address `0x00`). -/
def tSel : I2CState := I2C_API.construct busReadySel

/-- The `FrostAPI` session on the same bus. -/
def sSel : FrostState := FrostAPI.construct busReadySel

/-- C4 counterexample: on the same bus (master mode, address `2` answers
the probe, the `I2C_API` stored address `0x00` does not) and the same
argument lists, each of the four `I2C_API` transfer operations — send,
receive, memory write, memory read — raises the device-not-found
exception while the corresponding `FrostAPI` operation raises nothing
and performs the bus transfer, so none of the four pairs is
behaviourally equivalent on every state and argument list. -/
theorem c4_counterexample :
    I2C_API._send tSel [1] 2 5000 = (.error .notFoundAddress, tSel, [])
    ∧ FrostAPI._send sSel [1] 2 5000 = (.ok (), sSel, [.send [1] 2 5000])
    ∧ I2C_API._recv tSel 3 2 5000 = (.error .notFoundAddress, tSel, [])
    ∧ FrostAPI._recv sSel 3 2 5000 = (.ok [3, 2, 5000], sSel, [.recv 3 2 5000])
    ∧ I2C_API._write tSel [1] 2 7 5000 8 = (.error .notFoundAddress, tSel, [])
    ∧ FrostAPI._write sSel [1] (some 2) 7 =
        (.ok (), sSel, [.memWrite [1] (some 2) 7 5000 8])
    ∧ I2C_API._read tSel 3 2 7 5000 8 = (.error .notFoundAddress, tSel, [])
    ∧ FrostAPI._read sSel 3 (some 2) 7 =
        (.ok [0x77], sSel, [.memRead 3 (some 2) 7 5000 8]) :=
  ⟨rfl, rfl, rfl, rfl, rfl, rfl, rfl, rfl⟩

/-- C4 amended: `close`, `is_init` and the scan operation are
behaviourally equivalent across the two revisions — same exception, same
bus calls and same resulting bus handle for every state — while none of
the four transfer operations is: each `I2C_API` transfer operation is
guarded by a readiness probe of its *stored* address, whereas
`FrostAPI._send`, `_write` and `_read` transfer unconditionally and
`FrostAPI._recv` is guarded by its `addr` argument instead, so the two
revisions diverge on every state where the stored address does not
answer but the `FrostAPI` operation's own guard (if any) passes; on the
branches where neither raises, they forward the same bus call. -/
theorem c4_amended (sF : FrostState) (a : Nat) (buf : List Nat) (oaddr : Option Nat)
    (size addr memaddr timeout addr_size : Nat) :
    I2C_API.is_init { i2c := sF.i2c, _ADDR := a } = FrostAPI.is_init sF
    ∧ (I2C_API.close { i2c := sF.i2c, _ADDR := a }).1 = (FrostAPI.close sF).1
    ∧ (I2C_API.close { i2c := sF.i2c, _ADDR := a }).2.2 = (FrostAPI.close sF).2.2
    ∧ (I2C_API.close { i2c := sF.i2c, _ADDR := a }).2.1.i2c = (FrostAPI.close sF).2.1.i2c
    ∧ (I2C_API.addr_scan { i2c := sF.i2c, _ADDR := a }).1 = (FrostAPI.scan_addr sF).1
    ∧ (I2C_API.addr_scan { i2c := sF.i2c, _ADDR := a }).2.2 = (FrostAPI.scan_addr sF).2.2
    ∧ (I2C_API.addr_scan { i2c := sF.i2c, _ADDR := a }).2.1.i2c
        = (FrostAPI.scan_addr sF).2.1.i2c
    ∧ FrostAPI._send sF buf addr timeout = (.ok (), sF, [.send buf addr timeout])
    ∧ FrostAPI._write sF buf oaddr memaddr =
        (.ok (), sF, [.memWrite buf oaddr memaddr sF._timeout sF._addr_size])
    ∧ FrostAPI._read sF size oaddr memaddr =
        (.ok (sF.i2c.memReadData size oaddr memaddr sF._timeout sF._addr_size), sF,
          [.memRead size oaddr memaddr sF._timeout sF._addr_size])
    ∧ FrostAPI._recv sF size addr timeout =
        (if sF.i2c.ready addr then
          (.ok (sF.i2c.recvData size addr timeout), sF, [.recv size addr timeout])
        else (.error .notFoundAddress, sF, []))
    ∧ I2C_API._send { i2c := sF.i2c, _ADDR := a } buf addr timeout =
        (if sF.i2c.ready a then
          (.ok (), { i2c := sF.i2c, _ADDR := a }, [.send buf addr timeout])
        else (.error .notFoundAddress, { i2c := sF.i2c, _ADDR := a }, []))
    ∧ I2C_API._recv { i2c := sF.i2c, _ADDR := a } size addr timeout =
        (if sF.i2c.ready a then
          (.ok (sF.i2c.recvData size addr timeout), { i2c := sF.i2c, _ADDR := a },
            [.recv size addr timeout])
        else (.error .notFoundAddress, { i2c := sF.i2c, _ADDR := a }, []))
    ∧ I2C_API._write { i2c := sF.i2c, _ADDR := a } buf addr memaddr timeout addr_size =
        (if sF.i2c.ready a then
          (.ok (), { i2c := sF.i2c, _ADDR := a },
            [.memWrite buf (some addr) memaddr timeout addr_size])
        else (.error .notFoundAddress, { i2c := sF.i2c, _ADDR := a }, []))
    ∧ I2C_API._read { i2c := sF.i2c, _ADDR := a } size addr memaddr timeout addr_size =
        (if sF.i2c.ready a then
          (.ok (sF.i2c.memReadData size (some addr) memaddr timeout addr_size),
            { i2c := sF.i2c, _ADDR := a },
            [.memRead size (some addr) memaddr timeout addr_size])
        else (.error .notFoundAddress, { i2c := sF.i2c, _ADDR := a }, [])) := by
  refine ⟨rfl, ?_, ?_, ?_, rfl, rfl, rfl, rfl, rfl, rfl, ?_, ?_, ?_, ?_, ?_⟩
  · cases hs : sF.i2c.inited <;>
      simp [I2C_API.close, I2C_API.is_init, FrostAPI.close, FrostAPI.is_init, hs]
  · cases hs : sF.i2c.inited <;>
      simp [I2C_API.close, I2C_API.is_init, FrostAPI.close, FrostAPI.is_init, hs]
  · cases hs : sF.i2c.inited <;>
      simp [I2C_API.close, I2C_API.is_init, FrostAPI.close, FrostAPI.is_init, hs]
  · cases hr : sF.i2c.ready addr <;>
      simp [FrostAPI._recv, FrostAPI.is_ready, hr]
  · cases hr : sF.i2c.ready a <;>
      simp [I2C_API._send, I2C_API.is_ready, I2C_API.get_addr, hr]
  · cases hr : sF.i2c.ready a <;>
      simp [I2C_API._recv, I2C_API.is_ready, I2C_API.get_addr, hr]
  · cases hr : sF.i2c.ready a <;>
      simp [I2C_API._write, I2C_API.is_ready, I2C_API.get_addr, hr]
  · cases hr : sF.i2c.ready a <;>
      simp [I2C_API._read, I2C_API.is_ready, I2C_API.get_addr, hr]

/-- A `FrostAPI` session on `busMasterAllReady` with the stored address
set to `0x50`. -/
def sMasterAddr : FrostState := FrostAPI.set_addr (FrostAPI.construct busMasterAllReady) 0x50

/-- C5: the stored slave address is unset (`None`) at construction, and
when the master-mode guards pass and the address has been set to `a`
(`get_addr = some a`), `write_mem` and `read_mem` use exactly that
stored address as the device address of the memory transfer. -/
theorem c5_mem_ops_use_stored_addr (b : I2C) (s : FrostState) (a : Nat)
    (buf : List Nat) (size memaddr : Nat)
    (hA : FrostAPI.get_addr s = some a)
    (hI : FrostAPI.is_init s = true) (hM : s.i2c.master = true) :
    (FrostAPI.construct b)._addr = none
    ∧ FrostAPI.write_mem s buf memaddr =
        (.ok (), s, [.memWrite buf (some a) memaddr s._timeout s._addr_size])
    ∧ FrostAPI.read_mem s size memaddr =
        (.ok (s.i2c.memReadData size (some a) memaddr s._timeout s._addr_size), s,
          [.memRead size (some a) memaddr s._timeout s._addr_size]) := by
  refine ⟨rfl, ?_, ?_⟩
  · simp [FrostAPI.write_mem, FrostAPI.is_master_mode, hI, hM, FrostAPI._write,
      FrostAPI.get_addr, FrostAPI.get_timeout, FrostAPI.get_addr_size] at hA ⊢
    simp [hA]
  · simp [FrostAPI.read_mem, FrostAPI.is_master_mode, hI, hM, FrostAPI._read,
      FrostAPI.get_addr, FrostAPI.get_timeout, FrostAPI.get_addr_size] at hA ⊢
    simp [hA]

/-- C5 witness: at a concrete master-mode session whose address was set
to `0x50`, `write_mem` targets device address `0x50`. -/
theorem c5_witness :
    FrostAPI.write_mem sMasterAddr [1, 2] 3 =
      (.ok (), sMasterAddr, [.memWrite [1, 2] (some 0x50) 3 5000 8]) :=
  (c5_mem_ops_use_stored_addr busMasterAllReady sMasterAddr 0x50 [1, 2] 0 3
    rfl rfl rfl).2.1

/-- C10: in the `I2C_API` revision, whether `_send`, `_recv`, `_write`
and `_read` raise the device-not-found exception depends only on the
readiness of the *stored* address (`get_addr`), for every value of the
`addr` argument; when the stored address is ready, the transfer itself
targets the `addr` argument. -/
theorem c10_guard_probes_stored_addr (s : I2CState) (buf : List Nat)
    (size addr memaddr timeout addr_size : Nat) :
    (s.i2c.ready s._ADDR = false →
      I2C_API._send s buf addr timeout = (.error .notFoundAddress, s, [])
      ∧ I2C_API._recv s size addr timeout = (.error .notFoundAddress, s, [])
      ∧ I2C_API._write s buf addr memaddr timeout addr_size = (.error .notFoundAddress, s, [])
      ∧ I2C_API._read s size addr memaddr timeout addr_size = (.error .notFoundAddress, s, []))
    ∧ (s.i2c.ready s._ADDR = true →
      I2C_API._send s buf addr timeout = (.ok (), s, [.send buf addr timeout])
      ∧ I2C_API._recv s size addr timeout =
          (.ok (s.i2c.recvData size addr timeout), s, [.recv size addr timeout])
      ∧ I2C_API._write s buf addr memaddr timeout addr_size =
          (.ok (), s, [.memWrite buf (some addr) memaddr timeout addr_size])
      ∧ I2C_API._read s size addr memaddr timeout addr_size =
          (.ok (s.i2c.memReadData size (some addr) memaddr timeout addr_size), s,
            [.memRead size (some addr) memaddr timeout addr_size])) := by
  constructor <;> intro h <;>
    simp [I2C_API._send, I2C_API._recv, I2C_API._write, I2C_API._read,
      I2C_API.is_ready, I2C_API.get_addr, h]

/-- C10 witness: at a concrete state whose stored address `0x00` does
not answer, `_send` raises the device-not-found exception even though it
was asked to transfer to address `9`. -/
theorem c10_witness :
    I2C_API._send (I2C_API.construct busMasterNoReady) [1] 9 100 =
      (.error .notFoundAddress, I2C_API.construct busMasterNoReady, []) :=
  ((c10_guard_probes_stored_addr (I2C_API.construct busMasterNoReady) [1] 0 9 0 100 8).1
    rfl).1
